import Mathlib

/-!
Verification of the reading-position and navigation synchronization core of
the tabirun docs site.

The embedded code comes from two components:
  * src/components/article-toc.tsx — the ArticleToc component: heading
    scanning (the build step inside its mount effect), slug assignment,
    the IntersectionObserver callback updating the active heading id,
    the click handler, and the render step.
  * src/components/link.tsx — the SideNav component: path normalization,
    active-entry derivation, and the drawer open/closed state machine.

DOM headings are modelled as records carrying the fields the code reads
(tagName, id, textContent); a missing id attribute is the empty string,
matching DOM semantics where element.id of an id-less element is "" and
the code's `if (!heading.id)` truthiness test. The browser history is a
list of location strings whose last element is the current entry.
-/

/-! ### Slugification (article-toc.tsx lines 42-47)

`heading.textContent?.toLowerCase().replace(/[^\w\s-]/g, "").replace(/\s+/g, "-") || ""`
-/

/-- ASCII word character, the JS regex class backslash-w: `[A-Za-z0-9_]`. -/
def isWordChar (c : Char) : Bool :=
  c.isAlphanum || c == '_'

/-- Whitespace as matched by the JS regex class backslash-s (ASCII part:
space, tab, LF, VT, FF, CR). -/
def isSpaceChar (c : Char) : Bool :=
  c == ' ' || c == '\t' || c == '\n' || c == '\x0b' || c == '\x0c' || c == '\r'

/-- Model of `replace(/[^\w\s-]/g, "")`: delete every character that is
neither a word character, whitespace, nor a hyphen. -/
def stripNonWord (l : List Char) : List Char :=
  l.filter (fun c => isWordChar c || isSpaceChar c || c == '-')

/-- Helper for collapseWs: the flag records whether the scan is inside a
whitespace run whose hyphen has already been emitted. -/
def collapseWsAux : Bool → List Char → List Char
  | _, [] => []
  | inRun, c :: cs =>
    if isSpaceChar c then
      if inRun then collapseWsAux true cs else '-' :: collapseWsAux true cs
    else c :: collapseWsAux false cs

/-- Model of `replace(/\s+/g, "-")`: each maximal run of whitespace becomes
a single hyphen. -/
def collapseWs (l : List Char) : List Char :=
  collapseWsAux false l

/-- The slug assigned to a heading that lacks an id (article-toc.tsx
lines 43-46): lowercase (per-character, the ASCII core of JS
toLowerCase), strip non-word characters, collapse whitespace runs to
hyphens.  The JS `|| ""` fallback covers a null textContent; a heading
element's textContent is modelled as an always-present string, and an
empty or all-stripped text already yields the empty string. -/
def slugify (t : String) : String :=
  ⟨collapseWs (stripNonWord (t.data.map Char.toLower))⟩

/-! ### Outline building (article-toc.tsx lines 28-56) -/

/-- The fields the code reads off a heading element.  `id = ""` stands for
an element with no id attribute (DOM reflection yields "" and the code
tests `!heading.id`). -/
structure RawHeading where
  tagName : String
  id : String
  text : String
deriving DecidableEq, Repr

/-- One entry of the table of contents (interface TocItem). -/
structure TocItem where
  id : String
  text : String
  level : Nat
deriving DecidableEq, Repr

/-- Model of `parseInt(heading.tagName.charAt(1))` (article-toc.tsx line
52).  The headings the query yields have tagName "H1".."H6", so charAt(1)
is a digit; a non-digit (JS NaN) is modelled as 0. -/
def levelOf (tagName : String) : Nat :=
  match tagName.data.get? 1 with
  | some c => if c.isDigit then c.toNat - 48 else 0
  | none => 0

/-- The record pushed for one heading (article-toc.tsx lines 40-54): a
heading with no id receives the slug of its text, a heading with an id
keeps it; text and level are copied as read. -/
def buildOne (h : RawHeading) : TocItem :=
  { id := if h.id = "" then slugify h.text else h.id
    text := h.text
    level := levelOf h.tagName }

/-- The forEach/push loop over the queried headings, in document order. -/
def build : List RawHeading → List TocItem
  | [] => []
  | h :: rest => buildOne h :: build rest

/-- The mount effect's scan (article-toc.tsx lines 30-56): `none` models
`document.getElementById(articleId)` returning null, in which case the
code warns and returns early, leaving the outline empty.  The Bool is
whether the console.warn diagnostic was emitted.  The function is total:
no code path throws. -/
def scanArticle (container : Option (List RawHeading)) : List TocItem × Bool :=
  match container with
  | none => ([], true)
  | some hs => (build hs, false)

/-! ### Active heading tracking (article-toc.tsx lines 26, 59-71) -/

/-- Initial value `useState<string>("")` (line 26): the active id before
any intersection event. -/
def initialActiveId : String := ""

/-- One intersection notification as the callback reads it. -/
structure ObserverEntry where
  isIntersecting : Bool
  targetId : String
deriving DecidableEq, Repr

/-- One iteration of the callback's forEach (lines 61-65): an intersecting
entry overwrites the active id with its target's id, any other entry
leaves it unchanged. -/
def observerCallbackStep (activeId : String) (e : ObserverEntry) : String :=
  if e.isIntersecting then e.targetId else activeId

/-- The whole IntersectionObserver callback on one batch of entries, in
delivery order. -/
def observerCallback (activeId : String) (entries : List ObserverEntry) : String :=
  entries.foldl observerCallbackStep activeId

/-- The active ids a run of the component can reach: the initial "" or an
id written by some batch, which is always the id of an observed heading
(the observer only watches the outline's headings). -/
def ReachableActiveId (items : List TocItem) (a : String) : Prop :=
  a = initialActiveId ∨ a ∈ items.map TocItem.id

/-! ### Click navigation (article-toc.tsx lines 81-89) -/

/-- Outcome of handleClick: the history stack after the call (last element
is the current entry) and the id scrolled to, if any. -/
structure ClickOutcome where
  history : List String
  scrolledTo : Option String
deriving DecidableEq, Repr

/-- handleClick(e, id): look the target element up by id among the
document's element ids; if absent, do nothing; if present, smooth-scroll
to it and call `history.pushState(null, "", "#" + id)`, which appends a
new entry to the history stack. -/
def handleClick (docIds : List String) (id : String) (history : List String) :
    ClickOutcome :=
  if docIds.contains id then
    { history := history ++ ["#" ++ id], scrolledTo := some id }
  else
    { history := history, scrolledTo := none }

/-! ### TOC rendering (article-toc.tsx lines 91-123) -/

/-- What the render emits for one entry: the anchor's target, its text,
whether the active styling is applied (`activeId === item.id`, line 111),
and the indent steps (`(item.level - 1) * 0.75rem`, line 105). -/
structure TocEntryView where
  id : String
  text : String
  active : Bool
  indentSteps : Nat
deriving DecidableEq, Repr

/-- One rendered list item. -/
def renderEntry (activeId : String) (it : TocItem) : TocEntryView :=
  { id := it.id
    text := it.text
    active := activeId == it.id
    indentSteps := it.level - 1 }

/-- The component's render: `if (tocItems.length === 0) return null` —
nothing at all, not even a container — otherwise the mapped entry list. -/
def renderToc (activeId : String) (items : List TocItem) :
    Option (List TocEntryView) :=
  if items.isEmpty then none else some (items.map (renderEntry activeId))

/-- How many rendered entries carry the active styling. -/
def activeCount (activeId : String) (items : List TocItem) : Nat :=
  ((items.map (renderEntry activeId)).filter (fun v => v.active)).length

/-! ### Path normalization and active entry (link.tsx lines 73-74, 178-180) -/

/-- Model of `path.replace(/\/+$/, "")`: strip every trailing slash. -/
def stripTrailingSlashes (p : String) : String :=
  ⟨(p.data.reverse.dropWhile (fun c => c == '/')).reverse⟩

/-- The string-level normalization: the root path "/" is preserved, every
other path has its trailing slashes stripped.  (Named normalizeStr to
avoid the ambient `normalize` of monoid theory.) -/
def normalizeStr (p : String) : String :=
  if p = "/" then "/" else stripTrailingSlashes p

/-- The source function normalizePath (link.tsx lines 73-74).  The
argument is optional —
currentPath is undefined before the mount effect runs — and the optional
chaining `path?.replace` propagates undefined. -/
def normalizePath (path : Option String) : Option String :=
  path.map normalizeStr

/-- The source function isActive (link.tsx lines 178-180): strict equality
of the normalized current path and the normalized href. -/
def isActive (currentPath : Option String) (href : String) : Bool :=
  normalizePath currentPath == normalizePath (some href)

/-! ### SideNav drawer state machine (link.tsx lines 106-176, 254-260) -/

/-- Initial value `useState(false)` (line 107): the drawer state rendered
on the first composition pass, before any effect has run. -/
def sideNavInitialOpen : Bool := false

/-- Effect step `setIsOpen(mediaQuery.matches)` inside the mount effect
(line 116): the first breakpoint read is applied only after the first
render. -/
def mountEffectOpen (isWide : Bool) : Bool := isWide

/-- The events that write the drawer state. -/
inductive NavEvent where
  | toggle
  | breakpointChange (isWide : Bool)
  | escapeKey
  | overlayClick
deriving DecidableEq, Repr

/-- One transition of the drawer state machine:
  * toggleNav (line 174-176) flips the state;
  * the media-query change handler (lines 119-121) sets the state to the
    new match, ignoring the previous state;
  * Escape (lines 162-166) closes an open drawer and is a no-op otherwise;
  * the overlay click (line 258) invokes toggleNav. -/
def navStep (isOpen : Bool) : NavEvent → Bool
  | .toggle => !isOpen
  | .breakpointChange w => w
  | .escapeKey => if isOpen then false else isOpen
  | .overlayClick => !isOpen

/-- n successive manual toggle() calls. -/
def applyToggles : Nat → Bool → Bool
  | 0, s => s
  | n + 1, s => applyToggles n (navStep s .toggle)

example : slugify "Intro" = "intro" := by decide
example : slugify "Hello  World!" = "hello-world" := by decide
example : slugify "" = "" := by decide
example : slugify "!!!" = "" := by decide
example : normalizeStr "/docs/" = "/docs" := by decide
example : normalizeStr "/" = "/" := by decide
example : levelOf "H3" = 3 := by decide
example : build [⟨"H1", "", "Intro"⟩, ⟨"H2", "", "Setup"⟩]
    = [⟨"intro", "Intro", 1⟩, ⟨"setup", "Setup", 2⟩] := by decide

/-! ### Helper lemmas -/

/-- Stripping trailing slashes twice is the same as stripping them once. -/
theorem stripTrailingSlashes_idem (p : String) :
    stripTrailingSlashes (stripTrailingSlashes p) = stripTrailingSlashes p := by
  simp [stripTrailingSlashes, List.reverse_reverse, List.dropWhile_idempotent]

/-- String-level idempotence of the normalization. -/
theorem normalizeStr_idem (p : String) :
    normalizeStr (normalizeStr p) = normalizeStr p := by
  unfold normalizeStr
  by_cases hp : p = "/"
  · simp [hp]
  · simp only [if_neg hp]
    by_cases hq : stripTrailingSlashes p = "/"
    · simp [hq]
    · simp [if_neg hq, stripTrailingSlashes_idem]

/-! ### C4 -/

/-- C4: path normalization is idempotent for every string, the root path
"/" is preserved, and "/docs/" normalizes to "/docs"; the same holds
lifted to the optional-path source function normalizePath. -/
theorem normalize_idempotent :
    (∀ p : String, normalizeStr (normalizeStr p) = normalizeStr p)
    ∧ normalizeStr "/" = "/"
    ∧ normalizeStr "/docs/" = "/docs"
    ∧ (∀ p : Option String, normalizePath (normalizePath p) = normalizePath p) := by
  refine ⟨normalizeStr_idem, by decide, by decide, ?_⟩
  intro p
  cases p with
  | none => rfl
  | some q => simp [normalizePath, normalizeStr_idem]

/-! ### C7 -/

/-- C7: a nav entry is active exactly when the normalized current path
equals the normalized href; no prefix matching, so "/docs" is not active
at "/docs/getting-started", while at current path "/start/" the entry
"/start" is active and the entry "/" is not. -/
theorem isActive_exact_match :
    (∀ cp href : String,
      isActive (some cp) href = true ↔ normalizeStr cp = normalizeStr href)
    ∧ isActive (some "/docs/getting-started") "/docs" = false
    ∧ isActive (some "/start/") "/start" = true
    ∧ isActive (some "/start/") "/" = false := by
  refine ⟨?_, by decide, by decide, by decide⟩
  intro cp href
  simp [isActive, normalizePath]

/-! ### C5 -/

/-- C5: a breakpoint-change event sets the drawer state to the new
breakpoint regardless of any prior toggle history: after any number of
manual toggles, the handler yields exactly the reported match, so OPEN at
narrow forces OPEN on a transition to wide and CLOSED on a transition
back to narrow, and a CLOSED drawer opens when resized narrow-to-wide. -/
theorem breakpoint_overrides_toggles :
    (∀ (s : Bool) (n : Nat) (w : Bool),
      navStep (applyToggles n s) (NavEvent.breakpointChange w) = w)
    ∧ navStep true (NavEvent.breakpointChange true) = true
    ∧ navStep true (NavEvent.breakpointChange false) = false
    ∧ navStep false (NavEvent.breakpointChange true) = true :=
  ⟨fun _ _ _ => rfl, rfl, rfl, rfl⟩

/-! ### C3 -/

/-- C3 counterexample: the first composition pass renders the drawer from
`useState(false)`, so on a wide viewport the first render shows CLOSED,
not the OPEN the claim derives synchronously from the breakpoint. -/
theorem sideNav_first_render_closed_on_wide :
    sideNavInitialOpen = false ∧ ¬ sideNavInitialOpen = mountEffectOpen true := by
  decide

/-- C3 amended: the drawer state on the first composition pass is CLOSED
unconditionally; the breakpoint is read in the mount effect, which runs
after the first render and only then sets the state to OPEN iff the
viewport is wide. -/
theorem sideNav_initial_then_mount_effect :
    sideNavInitialOpen = false
    ∧ (∀ w : Bool, mountEffectOpen w = w)
    ∧ mountEffectOpen true = true
    ∧ mountEffectOpen false = false :=
  ⟨rfl, fun _ => rfl, rfl, rfl⟩

/-! ### C1 -/

/-- C1 counterexample: clicking the "intro" entry while the history stack
holds one entry leaves a stack of two entries — `history.pushState`
appends a new entry, so the stack length is not unchanged. -/
theorem handleClick_push_counterexample :
    (handleClick ["intro"] "intro" ["/docs"]).history.length = 2
    ∧ ¬ (handleClick ["intro"] "intro" ["/docs"]).history.length
        = (["/docs"] : List String).length := by
  decide

/-- C1 amended: when the target heading exists, handleClick scrolls to it
and updates the hash to the anchor of the clicked id by PUSHING a new
history entry (history.pushState), so the stack grows by exactly one and
its new current entry is that anchor. -/
theorem handleClick_pushState
    (docIds : List String) (id : String) (hist : List String)
    (h : docIds.contains id = true) :
    (handleClick docIds id hist).history = hist ++ ["#" ++ id]
    ∧ (handleClick docIds id hist).history.length = hist.length + 1
    ∧ (handleClick docIds id hist).scrolledTo = some id := by
  have hm : id ∈ docIds := by simpa using h
  simp [handleClick, hm]

/-- Witness for C1 amended at a concrete click. -/
theorem handleClick_pushState_witness :
    (handleClick ["intro"] "intro" ["/docs"]).history = ["/docs"] ++ ["#" ++ "intro"]
    ∧ (handleClick ["intro"] "intro" ["/docs"]).history.length
        = (["/docs"] : List String).length + 1
    ∧ (handleClick ["intro"] "intro" ["/docs"]).scrolledTo = some "intro" :=
  handleClick_pushState ["intro"] "intro" ["/docs"] (by decide)

/-! ### C6 -/

/-- C6: the build step yields exactly one record per heading in document
order; each record copies the heading's text and takes its level from the
tag's digit; a heading with a non-empty explicit id keeps it, a heading
without one receives the slug of its text; and the two-heading article of
Scenario B yields exactly the expected outline. -/
theorem build_outline_correct :
    (∀ hs : List RawHeading, build hs = hs.map buildOne)
    ∧ (∀ h : RawHeading,
        (buildOne h).text = h.text
        ∧ (buildOne h).level = levelOf h.tagName
        ∧ (h.id ≠ "" → (buildOne h).id = h.id)
        ∧ (h.id = "" → (buildOne h).id = slugify h.text))
    ∧ build [⟨"H1", "", "Intro"⟩, ⟨"H2", "", "Setup"⟩]
        = [⟨"intro", "Intro", 1⟩, ⟨"setup", "Setup", 2⟩] := by
  refine ⟨?_, ?_, by decide⟩
  · intro hs
    induction hs with
    | nil => rfl
    | cons h rest ih => simp [build, ih]
  · intro h
    refine ⟨rfl, rfl, ?_, ?_⟩
    · intro hid
      simp [buildOne, hid]
    · intro hid
      simp [buildOne, hid]

/-! ### C8 -/

/-- C8: a missing article container yields the empty outline together with
the warning diagnostic and no exception (the scan is a total function),
and an empty outline renders nothing at all — no container element — both
for the missing-container outline and for any heading-less article. -/
theorem missing_container_renders_nothing :
    scanArticle none = ([], true)
    ∧ (∀ a : String, renderToc a (scanArticle none).1 = none)
    ∧ (∀ a : String, renderToc a [] = none)
    ∧ (∀ a : String, renderToc a (scanArticle (some [])).1 = none) :=
  ⟨rfl, fun _ => rfl, fun _ => rfl, fun _ => rfl⟩

/-! ### C9 -/

/-- Appending one element to the searched list: find? hits the old list
first and the new element only as a fallback. -/
theorem find?_append_singleton {α : Type} (p : α → Bool) (t : List α) (x : α) :
    (t ++ [x]).find? p =
      match t.find? p with
      | some y => some y
      | none => if p x then some x else none := by
  induction t with
  | nil => cases hx : p x <;> simp [List.find?, hx]
  | cons c t ih =>
    cases hc : p c
    · rw [List.cons_append, List.find?_cons_of_neg _ (by simp [hc]),
        List.find?_cons_of_neg _ (by simp [hc]), ih]
    · rw [List.cons_append, List.find?_cons_of_pos _ (by simp [hc]),
        List.find?_cons_of_pos _ (by simp [hc])]

/-- The batch callback computes the last-delivered intersecting id. -/
theorem observerCallback_eq_find_rev (a : String) (entries : List ObserverEntry) :
    observerCallback a entries =
      match entries.reverse.find? (fun e => e.isIntersecting) with
      | some e => e.targetId
      | none => a := by
  induction entries generalizing a with
  | nil => rfl
  | cons e t ih =>
    show observerCallback (observerCallbackStep a e) t = _
    rw [ih]
    rw [List.reverse_cons, find?_append_singleton]
    cases hf : t.reverse.find? (fun e => e.isIntersecting)
    · cases he : e.isIntersecting <;> simp [observerCallbackStep, he]
    · simp

/-- C9: processing a batch folds every intersecting entry into the active
id in delivery order, so the final value is the id of the last-delivered
intersecting entry; non-intersecting entries leave it unchanged and a
batch with no intersecting entry leaves it unchanged. -/
theorem observerCallback_last_intersecting :
    (∀ (a : String) (entries : List ObserverEntry),
      observerCallback a entries =
        match entries.reverse.find? (fun e => e.isIntersecting) with
        | some e => e.targetId
        | none => a)
    ∧ (∀ (a : String) (entries : List ObserverEntry),
        (∀ e ∈ entries, e.isIntersecting = false) →
          observerCallback a entries = a)
    ∧ observerCallback "" [⟨true, "alpha"⟩, ⟨false, "beta"⟩, ⟨true, "gamma"⟩]
        = "gamma"
    ∧ observerCallback "alpha" [⟨false, "beta"⟩] = "alpha" := by
  refine ⟨observerCallback_eq_find_rev, ?_, by decide, by decide⟩
  intro a entries hnone
  rw [observerCallback_eq_find_rev]
  have : entries.reverse.find? (fun e => e.isIntersecting) = none := by
    rw [List.find?_eq_none]
    intro e he
    simp [hnone e (List.mem_reverse.mp he)]
  simp [this]

/-! ### C2 -/

/-- C2 counterexample: the article with two headings both titled "Dup"
slugifies both to the id "dup"; after a batch in which one of them
intersects, the active id "dup" equals the id of two records of the
outline, and both rendered entries carry the active styling at once. -/
theorem two_active_entries_counterexample :
    ReachableActiveId (build [⟨"H2", "", "Dup"⟩, ⟨"H2", "", "Dup"⟩])
        (observerCallback initialActiveId [⟨true, "dup"⟩])
    ∧ activeCount (observerCallback initialActiveId [⟨true, "dup"⟩])
        (build [⟨"H2", "", "Dup"⟩, ⟨"H2", "", "Dup"⟩]) = 2 := by
  exact ⟨Or.inr (by decide), by decide⟩

/-- Unfolding the active-entry count over the head of the outline. -/
theorem activeCount_cons (a : String) (it : TocItem) (t : List TocItem) :
    activeCount a (it :: t) =
      (if a == it.id then 1 else 0) + activeCount a t := by
  by_cases h : a == it.id
  · simp [activeCount, renderEntry, List.filter_cons, h]
    omega
  · simp [activeCount, renderEntry, List.filter_cons, h]

/-- With no record carrying the active id, no rendered entry is active. -/
theorem activeCount_eq_zero_of_not_mem (a : String) (items : List TocItem)
    (h : a ∉ items.map TocItem.id) : activeCount a items = 0 := by
  induction items with
  | nil => rfl
  | cons it t ih =>
    have hne : (a == it.id) = false := by
      apply beq_eq_false_iff_ne.mpr
      intro he
      exact h (by simp [he])
    have ht : a ∉ t.map TocItem.id := fun hm => h (by simp [hm])
    rw [activeCount_cons, hne]
    simp [ih ht]

/-- C2 amended: every reachable active id is the initial "" or the id of
some outline record, and the rendered entries marked active are exactly
those records whose id equals the active id; hence when the outline's ids
are pairwise distinct at most one rendered entry is active at any
reachable state, while duplicated slugs make every duplicate active at
once. -/
theorem at_most_one_active_of_nodup :
    (∀ (items : List TocItem) (a : String) (entries : List ObserverEntry),
        ReachableActiveId items a →
        (∀ e ∈ entries, e.targetId ∈ items.map TocItem.id) →
        ReachableActiveId items (observerCallback a entries))
    ∧ (∀ (items : List TocItem) (a : String),
        (items.map TocItem.id).Nodup → activeCount a items ≤ 1) := by
  constructor
  · intro items a entries
    induction entries generalizing a with
    | nil => exact fun ha _ => ha
    | cons e t ih =>
      intro ha hmem
      show ReachableActiveId items (observerCallback (observerCallbackStep a e) t)
      apply ih
      · cases he : e.isIntersecting
        · rw [show observerCallbackStep a e = a by simp [observerCallbackStep, he]]
          exact ha
        · rw [show observerCallbackStep a e = e.targetId by
            simp [observerCallbackStep, he]]
          exact Or.inr (hmem e (by simp))
      · intro x hx
        exact hmem x (by simp [hx])
  · intro items a hnodup
    induction items with
    | nil => simp [activeCount]
    | cons it t ih =>
      rw [List.map_cons, List.nodup_cons] at hnodup
      rw [activeCount_cons]
      by_cases h : a == it.id
      · have ha : a = it.id := by simpa using h
        have hz : activeCount a t = 0 :=
          activeCount_eq_zero_of_not_mem a t (ha ▸ hnodup.1)
        simp [h, hz]
      · have hb : (a == it.id) = false := by simpa using h
        rw [hb]
        simpa using ih hnodup.2

/-! ### C10 -/

/-- C10: the active id is initialized to the empty string, not undefined;
a heading whose id attribute is absent and whose text slugifies to
nothing receives the empty string as its id, and its rendered entry
carries the active styling already at the first render, before any
intersection event — shown both in general and on the concrete article
with the single heading "!!!". -/
theorem empty_slug_active_initially :
    initialActiveId = ""
    ∧ (∀ h : RawHeading, h.id = "" → slugify h.text = "" →
        (buildOne h).id = ""
        ∧ (renderEntry initialActiveId (buildOne h)).active = true)
    ∧ (renderEntry initialActiveId (buildOne ⟨"H2", "", "!!!"⟩)).active = true
    ∧ renderToc initialActiveId (build [⟨"H2", "", "!!!"⟩])
        = some [⟨"", "!!!", true, 1⟩] := by
  refine ⟨rfl, ?_, by decide, by decide⟩
  intro h h1 h2
  constructor
  · simp [buildOne, h1, h2]
  · simp [renderEntry, buildOne, h1, h2, initialActiveId]
